import Mathlib

/-!
Verification of the RTMP endpoint core: a shallow embedding of the
handshake constants and state enums (src/vendor/rtmp/src/handshake/define.rs),
the message-type constants and message data model
(src/protocol/rtmp/src/messages/define.rs), and the NetConnection error
wrapper (src/vendor/rtmp/src/netconnection/errors.rs), together with
theorems settling the specification claims about them.
-/

/-- UTF-8 byte sequence of a string, as natural numbers.  This is the byte
list underlying String.toUTF8 in the Rust/Lean sense: each character is
encoded by the standard UTF-8 scheme. -/
def utf8Bytes (s : String) : List Nat :=
  (s.data.flatMap String.utf8EncodeChar).map (fun b => b.toNat)

/-- Embeds enum SchemaVersion of src/vendor/rtmp/src/handshake/define.rs. -/
inductive SchemaVersion
  | Schema0
  | Schema1
  | Unknown
deriving DecidableEq, Fintype

/-- Embeds enum ClientHandshakeState of src/vendor/rtmp/src/handshake/define.rs. -/
inductive ClientHandshakeState
  | WriteC0C1
  | ReadS0S1S2
  | WriteC2
  | Finish
deriving DecidableEq, Fintype

/-- Embeds enum ServerHandshakeState of src/vendor/rtmp/src/handshake/define.rs. -/
inductive ServerHandshakeState
  | ReadC0C1
  | WriteS0S1S2
  | ReadC2
  | Finish
deriving DecidableEq, Fintype

/-- Modelled from the spec: the server-role phase progression
"ReadC0C1 → WriteS0S1S2 → ReadC2 → Finish" (§4.2); the handshake driver
code that advances the state is not under src/, only the state enum is. -/
def serverNextState : ServerHandshakeState → ServerHandshakeState
  | .ReadC0C1 => .WriteS0S1S2
  | .WriteS0S1S2 => .ReadC2
  | .ReadC2 => .Finish
  | .Finish => .Finish

/-- Modelled from the spec: the client-role phase progression
"WriteC0C1 → ReadS0S1S2 → WriteC2 → Finish" (§4.2); the handshake driver
code that advances the state is not under src/, only the state enum is. -/
def clientNextState : ClientHandshakeState → ClientHandshakeState
  | .WriteC0C1 => .ReadS0S1S2
  | .ReadS0S1S2 => .WriteC2
  | .WriteC2 => .Finish
  | .Finish => .Finish

/-- Embeds const RTMP_VERSION: usize = 3. -/
def RTMP_VERSION : Nat := 3

/-- Embeds const RTMP_HANDSHAKE_SIZE: usize = 1536. -/
def RTMP_HANDSHAKE_SIZE : Nat := 1536

/-- Embeds const RTMP_SERVER_VERSION: [u8; 4]. -/
def RTMP_SERVER_VERSION : List Nat := [0x0D, 0x0E, 0x0A, 0x0D]

/-- Embeds const RTMP_CLIENT_VERSION: [u8; 4]. -/
def RTMP_CLIENT_VERSION : List Nat := [0x0C, 0x00, 0x0D, 0x0E]

/-- Embeds const RTMP_DIGEST_LENGTH: usize = 32. -/
def RTMP_DIGEST_LENGTH : Nat := 32

/-- Embeds const RTMP_SERVER_KEY_FIRST_HALF: the server key leading string. -/
def RTMP_SERVER_KEY_FIRST_HALF : String := "Genuine Adobe Flash Media Server 001"

/-- Embeds const RTMP_CLIENT_KEY_FIRST_HALF: the client key leading string. -/
def RTMP_CLIENT_KEY_FIRST_HALF : String := "Genuine Adobe Flash Player 001"

/-- Embeds const RTMP_SERVER_KEY: [u8; 68], byte for byte from the source. -/
def RTMP_SERVER_KEY : List Nat :=
  [0x47, 0x65, 0x6e, 0x75, 0x69, 0x6e, 0x65, 0x20, 0x41, 0x64, 0x6f, 0x62, 0x65, 0x20, 0x46, 0x6c,
   0x61, 0x73, 0x68, 0x20, 0x4d, 0x65, 0x64, 0x69, 0x61, 0x20, 0x53, 0x65, 0x72, 0x76, 0x65, 0x72,
   0x20, 0x30, 0x30, 0x31,
   0xf0, 0xee, 0xc2, 0x4a, 0x80, 0x68, 0xbe, 0xe8, 0x2e, 0x00, 0xd0, 0xd1, 0x02, 0x9e, 0x7e, 0x57,
   0x6e, 0xec, 0x5d, 0x2d, 0x29, 0x80, 0x6f, 0xab, 0x93, 0xb8, 0xe6, 0x36, 0xcf, 0xeb, 0x31, 0xae]

/-- The 32-byte tail constant given by the spec (§6 wire constants). -/
def spec_key_tail : List Nat :=
  [0xf0, 0xee, 0xc2, 0x4a, 0x80, 0x68, 0xbe, 0xe8, 0x2e, 0x00, 0xd0, 0xd1, 0x02, 0x9e, 0x7e, 0x57,
   0x6e, 0xec, 0x5d, 0x2d, 0x29, 0x80, 0x6f, 0xab, 0x93, 0xb8, 0xe6, 0x36, 0xcf, 0xeb, 0x31, 0xae]

/-- Modelled from the spec: the HMAC key used for C1 digest verification,
"the first 30 bytes (Genuine Adobe Flash Player 001)" (§4.2); the verifier
code is not under src/.  Written from the words of the spec to be compared
with the source constant. -/
def c1_digest_key : List Nat := utf8Bytes "Genuine Adobe Flash Player 001"

/-- Modelled from the spec: the HMAC key used for S1 digest verification,
"the first 36 bytes (Genuine Adobe Flash Media Server 001)" (§4.2); the
verifier code is not under src/.  Written from the words of the spec to be
compared with the source constant. -/
def s1_digest_key : List Nat := utf8Bytes "Genuine Adobe Flash Media Server 001"

/-- Embeds pub const AUDIO: u8 = 8 of mod msg_type_id. -/
def msg_type_id.AUDIO : Nat := 8

/-- Embeds pub const VIDEO: u8 = 9 of mod msg_type_id. -/
def msg_type_id.VIDEO : Nat := 9

/-- Embeds pub const SET_CHUNK_SIZE: u8 = 1 of mod msg_type_id. -/
def msg_type_id.SET_CHUNK_SIZE : Nat := 1

/-- Embeds pub const ABORT: u8 = 2 of mod msg_type_id. -/
def msg_type_id.ABORT : Nat := 2

/-- Embeds pub const ACKNOWLEDGEMENT: u8 = 3 of mod msg_type_id. -/
def msg_type_id.ACKNOWLEDGEMENT : Nat := 3

/-- Embeds pub const USER_CONTROL_EVENT: u8 = 4 of mod msg_type_id. -/
def msg_type_id.USER_CONTROL_EVENT : Nat := 4

/-- Embeds pub const WIN_ACKNOWLEDGEMENT_SIZE: u8 = 5 of mod msg_type_id. -/
def msg_type_id.WIN_ACKNOWLEDGEMENT_SIZE : Nat := 5

/-- Embeds pub const SET_PEER_BANDWIDTH: u8 = 6 of mod msg_type_id. -/
def msg_type_id.SET_PEER_BANDWIDTH : Nat := 6

/-- Embeds pub const COMMAND_AMF3: u8 = 17 of mod msg_type_id. -/
def msg_type_id.COMMAND_AMF3 : Nat := 17

/-- Embeds pub const COMMAND_AMF0: u8 = 20 of mod msg_type_id. -/
def msg_type_id.COMMAND_AMF0 : Nat := 20

/-- Embeds pub const DATA_AMF3: u8 = 15 of mod msg_type_id. -/
def msg_type_id.DATA_AMF3 : Nat := 15

/-- Embeds pub const DATA_AMF0: u8 = 18 of mod msg_type_id. -/
def msg_type_id.DATA_AMF0 : Nat := 18

/-- Embeds pub const SHARED_OBJ_AMF3: u8 = 16 of mod msg_type_id. -/
def msg_type_id.SHARED_OBJ_AMF3 : Nat := 16

/-- Embeds pub const SHARED_OBJ_AMF0: u8 = 19 of mod msg_type_id. -/
def msg_type_id.SHARED_OBJ_AMF0 : Nat := 19

/-- Embeds pub const AGGREGATE: u8 = 22 of mod msg_type_id. -/
def msg_type_id.AGGREGATE : Nat := 22

/-- Modelled from the spec: the AMF0 tagged sum of values (§4.1: Number,
Boolean, UTF8 string, Object, Null, Undefined, Reference, ECMA-array,
Strict-array, Date, LongString, Typed-object); the defining file
src/protocol/rtmp/src/amf0/define.rs is not under src/.  The Number payload
is an IEEE 754 double; no arithmetic on it is used by any claim. -/
inductive Amf0ValueType
  | Number (value : Float)
  | Boolean (value : Bool)
  | UTF8String (value : String)
  | Object (properties : List (String × Amf0ValueType))
  | Null
  | Undefined
  | Reference (index : Nat)
  | EcmaArray (properties : List (String × Amf0ValueType))
  | StrictArray (values : List Amf0ValueType)
  | Date (value : Float) (timezone : Nat)
  | LongString (value : String)
  | TypedObject (class_name : String) (properties : List (String × Amf0ValueType))

/-- A byte buffer (the Rust BytesMut), as a list of byte values. -/
def BytesMut : Type := List Nat

/-- Embeds struct SetPeerBandwidthProperties of
src/protocol/rtmp/src/messages/define.rs: a 32-bit window size and an
8-bit limit type, as natural numbers. -/
structure SetPeerBandwidthProperties where
  window_size : Nat
  limit_type : Nat
deriving DecidableEq

/-- Embeds SetPeerBandwidthProperties::new: stores both arguments. -/
def SetPeerBandwidthProperties.new (window_size : Nat) (limit_type : Nat) :
    SetPeerBandwidthProperties :=
  { window_size := window_size, limit_type := limit_type }

/-- Embeds enum MessageTypes of src/protocol/rtmp/src/messages/define.rs. -/
inductive MessageTypes
  | Amf0Command (command_name : Amf0ValueType) (transaction_id : Amf0ValueType)
      (command_object : Amf0ValueType) (others : List Amf0ValueType)
  | SetChunkSize (chunk_size : Nat)
  | AbortMessage (chunk_stream_id : Nat)
  | Acknowledgement (sequence_number : Nat)
  | WindowAcknowledgementSize (size : Nat)
  | SetPeerBandwidth (properties : SetPeerBandwidthProperties)
  | AudioData (data : BytesMut)
  | VideoData (data : BytesMut)

/-- Discriminator for the Amf0Command variant of MessageTypes. -/
def MessageTypes.isAmf0Command : MessageTypes → Bool
  | .Amf0Command _ _ _ _ => true
  | _ => false

/-- Modelled from the spec: the AMF0 read failure kinds (§4.1: UnknownMarker,
UnexpectedEof, InvalidUtf8, UnsupportedType); the defining file
src/vendor/rtmp/src/amf0/errors.rs is not under src/. -/
inductive Amf0ReadError
  | UnknownMarker (marker : Nat)
  | UnexpectedEof
  | InvalidUtf8
  | UnsupportedType
deriving DecidableEq

/-- Modelled from the spec: the AMF0 write failure (§4.1: the write contract
never fails except on writer I-O); the defining file
src/vendor/rtmp/src/amf0/errors.rs is not under src/. -/
inductive Amf0WriteError
  | Io (message : String)
deriving DecidableEq

/-- Modelled from the spec: the Display text of an AMF0 read error.  The
exact text is unspecified; only its flow through the wrapper matters for
the claims here, so each kind renders its own tag. -/
def Amf0ReadError.display : Amf0ReadError → String
  | .UnknownMarker m => "unknown marker " ++ toString m
  | .UnexpectedEof => "unexpected eof"
  | .InvalidUtf8 => "invalid utf8"
  | .UnsupportedType => "unsupported type"

/-- Modelled from the spec: the Display text of an AMF0 write error. -/
def Amf0WriteError.display : Amf0WriteError → String
  | .Io m => "io error " ++ m

/-- Embeds enum NetConnectionErrorValue of
src/vendor/rtmp/src/netconnection/errors.rs: exactly two variants, one
wrapping an AMF0 write error and one wrapping an AMF0 read error. -/
inductive NetConnectionErrorValue
  | Amf0WriteError (error : Amf0WriteError)
  | Amf0ReadError (error : Amf0ReadError)
deriving DecidableEq

/-- Discriminator for the Amf0ReadError variant of NetConnectionErrorValue. -/
def NetConnectionErrorValue.isAmf0ReadError : NetConnectionErrorValue → Bool
  | .Amf0ReadError _ => true
  | .Amf0WriteError _ => false

/-- Embeds the derived Fail impl on NetConnectionErrorValue: the derive in
the source marks no field as a cause, so per the failure crate semantics
the cause of every variant is none. -/
def NetConnectionErrorValue.cause (_ : NetConnectionErrorValue) : Option String :=
  none

/-- Embeds the fail display attributes on NetConnectionErrorValue:
"amf0 write error: ..." and "amf0 read error: ...", each followed by a
newline, with the wrapped error rendered in the middle. -/
def NetConnectionErrorValue.display : NetConnectionErrorValue → String
  | .Amf0WriteError e => "amf0 write error: " ++ e.display ++ "\n"
  | .Amf0ReadError e => "amf0 read error: " ++ e.display ++ "\n"

/-- Embeds struct NetConnectionError of
src/vendor/rtmp/src/netconnection/errors.rs. -/
structure NetConnectionError where
  value : NetConnectionErrorValue
deriving DecidableEq

/-- Embeds the Fail impl for NetConnectionError: cause delegates to the
wrapped value. -/
def NetConnectionError.cause (e : NetConnectionError) : Option String :=
  e.value.cause

/-- Embeds the Display impl for NetConnectionError: fmt delegates to the
wrapped value. -/
def NetConnectionError.display (e : NetConnectionError) : String :=
  e.value.display

/-- Embeds impl From Amf0WriteError for NetConnectionError. -/
def NetConnectionError.fromAmf0WriteError (error : Amf0WriteError) : NetConnectionError :=
  { value := NetConnectionErrorValue.Amf0WriteError error }

/-- Embeds impl From Amf0ReadError for NetConnectionError. -/
def NetConnectionError.fromAmf0ReadError (error : Amf0ReadError) : NetConnectionError :=
  { value := NetConnectionErrorValue.Amf0ReadError error }

/-- C1: the 68-byte server handshake HMAC key is exactly the 36 UTF-8 bytes
of the server key leading string followed by the fixed 32-byte tail
constant of the spec; in particular its first 36 bytes equal the UTF-8
bytes of RTMP_SERVER_KEY_FIRST_HALF. -/
theorem C1_server_key_layout :
    RTMP_SERVER_KEY.length = 68 ∧
    RTMP_SERVER_KEY.take 36 = utf8Bytes RTMP_SERVER_KEY_FIRST_HALF ∧
    (utf8Bytes RTMP_SERVER_KEY_FIRST_HALF).length = 36 ∧
    RTMP_SERVER_KEY.drop 36 = spec_key_tail ∧
    spec_key_tail.length = 32 := by decide

/-- C2: the message type ID constants equal the values tabulated in the
spec. -/
theorem C2_msg_type_ids :
    msg_type_id.SET_CHUNK_SIZE = 1 ∧ msg_type_id.ABORT = 2 ∧
    msg_type_id.ACKNOWLEDGEMENT = 3 ∧ msg_type_id.USER_CONTROL_EVENT = 4 ∧
    msg_type_id.WIN_ACKNOWLEDGEMENT_SIZE = 5 ∧ msg_type_id.SET_PEER_BANDWIDTH = 6 ∧
    msg_type_id.AUDIO = 8 ∧ msg_type_id.VIDEO = 9 ∧
    msg_type_id.DATA_AMF3 = 15 ∧ msg_type_id.SHARED_OBJ_AMF3 = 16 ∧
    msg_type_id.COMMAND_AMF3 = 17 ∧ msg_type_id.DATA_AMF0 = 18 ∧
    msg_type_id.SHARED_OBJ_AMF0 = 19 ∧ msg_type_id.COMMAND_AMF0 = 20 ∧
    msg_type_id.AGGREGATE = 22 := by decide

/-- C3: the server-role handshake state type has exactly the four phases
ReadC0C1, WriteS0S1S2, ReadC2, Finish and the client-role state type has
exactly the four phases WriteC0C1, ReadS0S1S2, WriteC2, Finish; the
progression modelled from the spec visits them in those orders. -/
theorem C3_handshake_phases :
    (∀ s : ServerHandshakeState,
        s = .ReadC0C1 ∨ s = .WriteS0S1S2 ∨ s = .ReadC2 ∨ s = .Finish) ∧
    (∀ s : ClientHandshakeState,
        s = .WriteC0C1 ∨ s = .ReadS0S1S2 ∨ s = .WriteC2 ∨ s = .Finish) ∧
    Fintype.card ServerHandshakeState = 4 ∧
    Fintype.card ClientHandshakeState = 4 ∧
    serverNextState .ReadC0C1 = .WriteS0S1S2 ∧
    serverNextState .WriteS0S1S2 = .ReadC2 ∧
    serverNextState .ReadC2 = .Finish ∧
    clientNextState .WriteC0C1 = .ReadS0S1S2 ∧
    clientNextState .ReadS0S1S2 = .WriteC2 ∧
    clientNextState .WriteC2 = .Finish := by
  refine ⟨?_, ?_, ?_, ?_, rfl, rfl, rfl, rfl, rfl, rfl⟩
  · intro s; cases s <;> decide
  · intro s; cases s <;> decide
  · decide
  · decide

/-- C4: the client key leading string equals "Genuine Adobe Flash Player
001" and is 30 bytes, the server key leading string equals "Genuine Adobe
Flash Media Server 001" and is 36 bytes, the digest length constant is 32,
and the spec-modelled C1 and S1 verification keys coincide with those
source constants. -/
theorem C4_key_and_digest_constants :
    RTMP_CLIENT_KEY_FIRST_HALF = "Genuine Adobe Flash Player 001" ∧
    (utf8Bytes RTMP_CLIENT_KEY_FIRST_HALF).length = 30 ∧
    RTMP_SERVER_KEY_FIRST_HALF = "Genuine Adobe Flash Media Server 001" ∧
    (utf8Bytes RTMP_SERVER_KEY_FIRST_HALF).length = 36 ∧
    RTMP_DIGEST_LENGTH = 32 ∧
    c1_digest_key = utf8Bytes RTMP_CLIENT_KEY_FIRST_HALF ∧
    c1_digest_key.length = 30 ∧
    s1_digest_key = utf8Bytes RTMP_SERVER_KEY_FIRST_HALF ∧
    s1_digest_key.length = 36 := by decide

/-- C5: the RTMP version constant equals 3 and the handshake block size
constant equals 1536. -/
theorem C5_version_and_block_size :
    RTMP_VERSION = 3 ∧ RTMP_HANDSHAKE_SIZE = 1536 := by decide

/-- C6: the Amf0Command variant of MessageTypes carries exactly a command
name, a transaction id, a command object and a list of additional values:
the constructor on those four components is injective, and every
MessageTypes value recognized as an Amf0Command is such a constructor
application. -/
theorem C6_amf0_command_components :
    (∀ n t o r n2 t2 o2 r2,
        MessageTypes.Amf0Command n t o r = MessageTypes.Amf0Command n2 t2 o2 r2 ↔
          n = n2 ∧ t = t2 ∧ o = o2 ∧ r = r2) ∧
    (∀ m : MessageTypes, m.isAmf0Command = true →
        ∃ n t o r, m = MessageTypes.Amf0Command n t o r) := by
  constructor
  · intro n t o r n2 t2 o2 r2
    constructor
    · intro h
      injection h with h1 h2 h3 h4
      exact ⟨h1, h2, h3, h4⟩
    · rintro ⟨rfl, rfl, rfl, rfl⟩
      rfl
  · intro m h
    cases m with
    | Amf0Command n t o r => exact ⟨n, t, o, r, rfl⟩
    | SetChunkSize a => exact Bool.noConfusion h
    | AbortMessage a => exact Bool.noConfusion h
    | Acknowledgement a => exact Bool.noConfusion h
    | WindowAcknowledgementSize a => exact Bool.noConfusion h
    | SetPeerBandwidth a => exact Bool.noConfusion h
    | AudioData a => exact Bool.noConfusion h
    | VideoData a => exact Bool.noConfusion h

/-- Witness for C6 at a concrete command message. -/
theorem C6_amf0_command_components_witness :
    ∃ n t o r,
      MessageTypes.Amf0Command (Amf0ValueType.UTF8String "connect")
          (Amf0ValueType.Number 1.0) Amf0ValueType.Null [] =
        MessageTypes.Amf0Command n t o r :=
  C6_amf0_command_components.2 _ rfl

/-- C7: the SetPeerBandwidth properties constructor stores the given
32-bit window size and 8-bit limit type unchanged. -/
theorem C7_set_peer_bandwidth_new (w l : Nat) (hw : w < 2 ^ 32) (hl : l < 2 ^ 8) :
    (SetPeerBandwidthProperties.new w l).window_size = w ∧
    (SetPeerBandwidthProperties.new w l).limit_type = l ∧
    (SetPeerBandwidthProperties.new w l).window_size < 2 ^ 32 ∧
    (SetPeerBandwidthProperties.new w l).limit_type < 2 ^ 8 :=
  ⟨rfl, rfl, hw, hl⟩

/-- Witness for C7 at the default peer bandwidth 2500000 with the dynamic
limit type 2. -/
theorem C7_set_peer_bandwidth_new_witness :
    2500000 < 2 ^ 32 ∧ 2 < 2 ^ 8 ∧
    ((SetPeerBandwidthProperties.new 2500000 2).window_size = 2500000 ∧
     (SetPeerBandwidthProperties.new 2500000 2).limit_type = 2 ∧
     (SetPeerBandwidthProperties.new 2500000 2).window_size < 2 ^ 32 ∧
     (SetPeerBandwidthProperties.new 2500000 2).limit_type < 2 ^ 8) :=
  ⟨by decide, by decide, C7_set_peer_bandwidth_new 2500000 2 (by decide) (by decide)⟩

/-- C8: the NetConnection error value type is a sum of exactly two
variants, one wrapping an AMF0 write error and one wrapping an AMF0 read
error, the two variants are distinguishable, and the cause of a
NetConnectionError is exactly the cause of its wrapped variant value. -/
theorem C8_netconnection_error_cause :
    (∀ v : NetConnectionErrorValue,
        (∃ e, v = NetConnectionErrorValue.Amf0WriteError e) ∨
        (∃ e, v = NetConnectionErrorValue.Amf0ReadError e)) ∧
    (∀ e, (NetConnectionErrorValue.Amf0WriteError e).isAmf0ReadError = false) ∧
    (∀ e, (NetConnectionErrorValue.Amf0ReadError e).isAmf0ReadError = true) ∧
    (∀ e : NetConnectionError, e.cause = e.value.cause) := by
  refine ⟨?_, fun e => rfl, fun e => rfl, fun e => rfl⟩
  intro v
  cases v with
  | Amf0WriteError e => exact Or.inl ⟨e, rfl⟩
  | Amf0ReadError e => exact Or.inr ⟨e, rfl⟩

/-- C9: the client handshake version constant is the fixed 4-byte value
0x0C 0x00 0x0D 0x0E and is not the all-zero value. -/
theorem C9_client_version_nonzero :
    RTMP_CLIENT_VERSION = [0x0C, 0x00, 0x0D, 0x0E] ∧
    (RTMP_CLIENT_VERSION == [0, 0, 0, 0]) = false ∧
    RTMP_CLIENT_VERSION.length = 4 := by decide

/-- C10: converting an AMF0 read or write error into a NetConnectionError
wraps exactly that error (the conversion is lossless), and displaying the
resulting NetConnectionError yields the same text as displaying its
wrapped variant value. -/
theorem C10_from_lossless_display_factors :
    (∀ e, (NetConnectionError.fromAmf0ReadError e).value =
        NetConnectionErrorValue.Amf0ReadError e) ∧
    (∀ e, (NetConnectionError.fromAmf0WriteError e).value =
        NetConnectionErrorValue.Amf0WriteError e) ∧
    (∀ e e2 : Amf0ReadError,
        NetConnectionError.fromAmf0ReadError e =
            NetConnectionError.fromAmf0ReadError e2 ↔ e = e2) ∧
    (∀ e e2 : Amf0WriteError,
        NetConnectionError.fromAmf0WriteError e =
            NetConnectionError.fromAmf0WriteError e2 ↔ e = e2) ∧
    (∀ e, (NetConnectionError.fromAmf0ReadError e).display =
        (NetConnectionErrorValue.Amf0ReadError e).display) ∧
    (∀ e, (NetConnectionError.fromAmf0WriteError e).display =
        (NetConnectionErrorValue.Amf0WriteError e).display) := by
  refine ⟨fun e => rfl, fun e => rfl, ?_, ?_, fun e => rfl, fun e => rfl⟩
  · intro e e2
    constructor
    · intro h
      exact NetConnectionErrorValue.Amf0ReadError.inj (congrArg NetConnectionError.value h)
    · intro h
      rw [h]
  · intro e e2
    constructor
    · intro h
      exact NetConnectionErrorValue.Amf0WriteError.inj (congrArg NetConnectionError.value h)
    · intro h
      rw [h]

/-- Witness for C10 at the concrete unexpected-eof read error. -/
theorem C10_from_lossless_display_factors_witness :
    (NetConnectionError.fromAmf0ReadError Amf0ReadError.UnexpectedEof).value =
      NetConnectionErrorValue.Amf0ReadError Amf0ReadError.UnexpectedEof ∧
    (NetConnectionError.fromAmf0ReadError Amf0ReadError.UnexpectedEof).display =
      (NetConnectionErrorValue.Amf0ReadError Amf0ReadError.UnexpectedEof).display :=
  ⟨C10_from_lossless_display_factors.1 Amf0ReadError.UnexpectedEof,
   C10_from_lossless_display_factors.2.2.2.2.1 Amf0ReadError.UnexpectedEof⟩
